import Mathlib

/-!
Verification of the websocket connection/queue manager of `plus_db_agent`
(`plus_db_agent/queue.py`, `plus_db_agent/schemas.py`, `plus_db_agent/enums.py`).

The Python code is shallowly embedded: each class becomes a structure, each
method a pure function threading the manager/connection state explicitly, and
Python exceptions become an explicit error component (`Option PyExc` for an
exception escaping a call, `Except PyExc` for fallible primitives).
-/

deriving instance DecidableEq for Except

namespace PlusDbAgent

/-- Python exception classes relevant to `queue.py`.
`validationError` is pydantic's `ValidationError` (a `ValueError` subclass),
`jsonDecodeError` is `json.JSONDecodeError` (also a `ValueError` subclass),
`runtimeError` is the `RuntimeError` starlette raises when sending on a
websocket that is not connected, `webSocketDisconnect` is
`fastapi.websockets.WebSocketDisconnect`, and `operationalError` is
`tortoise.exceptions.OperationalError`. -/
inductive PyExc where
  | attributeError
  | operationalError
  | validationError
  | jsonDecodeError
  | runtimeError
  | webSocketDisconnect
deriving DecidableEq, Repr

/-- `ValueError` and its subclasses, as matched by `except (ValueError, ...)`. -/
def PyExc.isValueError : PyExc → Bool
  | .validationError => true
  | .jsonDecodeError => true
  | _ => false

/-- `starlette.websockets.WebSocketState`. -/
inductive WebSocketState where
  | connecting
  | connected
  | disconnected
deriving DecidableEq, Repr

/-- `BaseMessageType(int, Enum)` from `plus_db_agent/enums.py`. -/
inductive BaseMessageType where
  | connection
  | createUuid
  | invalid
  | error
  | disconnect
deriving DecidableEq, Repr

/-- The integer value of each `BaseMessageType` member (`enums.py`, 66-73). -/
def BaseMessageType.toInt : BaseMessageType → Int
  | .connection => 7
  | .createUuid => 8
  | .invalid => 9
  | .error => 10
  | .disconnect => 11

/-- The payload union of `Message.data` from `plus_db_agent/schemas.py`:
`ConnectionSchema { token }`, `CreateUUIDSchema { uuid }`,
`ErrorResponseSchema { error }`. -/
inductive MsgData where
  | connectionSchema (token : String)
  | createUUIDSchema (uuid : String)
  | errorResponseSchema (error : String)
deriving DecidableEq, Repr

/-- `Message` from `plus_db_agent/schemas.py` (34-45): pydantic model with
fields `message_type` (validation alias `messageType`), `clinic_id`
(validation alias `clinicId`) and optional `data`. -/
structure Message where
  message_type : BaseMessageType
  clinic_id : Int
  data : Option MsgData := none
deriving DecidableEq, Repr

/-- JSON scalar values (leaves of a dumped payload dict). -/
inductive JsonScalar where
  | null
  | num (n : Int)
  | str (s : String)
deriving DecidableEq, Repr

/-- The value of one top-level field of a dumped message: a scalar, or the
dict of a nested pydantic sub-model (whose values are scalars).  Every JSON
frame this module writes nests at most two levels deep, so this specialized
shape is exact. -/
inductive JsonField where
  | null
  | num (n : Int)
  | str (s : String)
  | obj (fields : List (String × JsonScalar))
deriving DecidableEq, Repr

/-- A JSON object frame as serialized onto the wire by
`json.dumps(message.model_dump())` inside `send_json`. -/
structure JsonFrame where
  fields : List (String × JsonField)
deriving DecidableEq, Repr

/-- The keys of a JSON object frame, in order. -/
def JsonFrame.keys (f : JsonFrame) : List String :=
  f.fields.map Prod.fst

/-- `model_dump()` of a `Message.data` payload: pydantic dumps a nested
sub-model as a dict and `None` as `null`. -/
def MsgData.model_dump : Option MsgData → JsonField
  | none => .null
  | some (.connectionSchema t) => .obj [("token", .str t)]
  | some (.createUUIDSchema u) => .obj [("uuid", .str u)]
  | some (.errorResponseSchema e) => .obj [("error", .str e)]

/-- `Message.model_dump()`: pydantic v2 `model_dump()` defaults to
`by_alias=False`, so the dict uses the FIELD NAMES `message_type` and
`clinic_id`, not the validation aliases `messageType`/`clinicId`; every
field is included, `data` as `null` when absent. -/
def Message.model_dump (m : Message) : JsonFrame :=
  ⟨[("message_type", .num m.message_type.toInt),
    ("clinic_id", .num m.clinic_id),
    ("data", MsgData.model_dump m.data)]⟩

/-- `BaseClientWebSocket` from `queue.py` (26-86).  Class-level annotations
without a value (`clinic_id: int`, `uuid: str`) are attributes that do not
exist until assigned — reading them raises `AttributeError` — so they are
modelled as `Option` fields starting at `none`; `token` and `user_id` have
class-level defaults of `None`.  `objId` models Python object identity
(list membership and `list.remove` compare by identity here), `wbState` the
underlying starlette websocket's state, and `sent` the JSON frames written
to the wire so far. -/
structure BaseClientWebSocket where
  objId : Nat
  token : Option String := none
  clinic_id : Option Int := none
  uuid : Option String := none
  user_id : Option Int := none
  wbState : WebSocketState := .connecting
  sent : List JsonFrame := []
deriving DecidableEq, Repr

namespace BaseClientWebSocket

/-- `self.wb.send_json(obj)`: starlette raises `RuntimeError` when the
websocket is not connected; otherwise the frame goes on the wire. -/
def sendJson (c : BaseClientWebSocket) (j : JsonFrame) :
    Except PyExc BaseClientWebSocket :=
  if c.wbState = .connected then .ok { c with sent := c.sent ++ [j] }
  else .error .runtimeError

/-- `send(message)` (`queue.py` 76-81) for a `Message` argument:
`await self.wb.send_json(message.model_dump())`. -/
def send (c : BaseClientWebSocket) (message : Message) :
    Except PyExc BaseClientWebSocket :=
  c.sendJson message.model_dump

/-- `send_invalid_message` (`queue.py` 50-54): builds
`Message(messageType=INVALID, clinicId=self.clinic_id)` — reading
`self.clinic_id` raises `AttributeError` when unset — and sends it. -/
def send_invalid_message (c : BaseClientWebSocket) :
    Except PyExc BaseClientWebSocket :=
  match c.clinic_id with
  | none => .error .attributeError
  | some k => c.send { message_type := .invalid, clinic_id := k }

/-- `send_error_message` (`queue.py` 56-64): builds
`Message(messageType=ERROR, clinicId=self.clinic_id,
data=ErrorResponseSchema(error=error))` and sends it. -/
def send_error_message (c : BaseClientWebSocket) (error : String) :
    Except PyExc BaseClientWebSocket :=
  match c.clinic_id with
  | none => .error .attributeError
  | some k =>
      c.send { message_type := .error, clinic_id := k,
               data := some (.errorResponseSchema error) }

/-- The guard `self.wb.state == WebSocketState.CONNECTED` used at
`queue.py` 85 and 115, as Python evaluates it: starlette's
`WebSocket.state` (inherited from `HTTPConnection`) is the request-scoped
`State` namespace object, never a `WebSocketState` enum member (the
transport states live in `client_state`/`application_state`), so this
comparison is always `False`. -/
def wbStateIsConnected (_c : BaseClientWebSocket) : Bool := false

/-- `close` (`queue.py` 83-86): `if self.wb.state == WebSocketState.
CONNECTED: await self.wb.close()`.  The guard compares the request-`State`
object with the enum and is constantly false, so the close branch is dead
code and the transport is never actually closed. -/
def close (c : BaseClientWebSocket) : BaseClientWebSocket :=
  if c.wbStateIsConnected then { c with wbState := .disconnected } else c

/-- `self.wb.accept()`: transitions the starlette handshake from
`CONNECTING` to `CONNECTED`; on a socket not in `CONNECTING` state
starlette raises `RuntimeError`. -/
def wbAccept (c : BaseClientWebSocket) :
    Except PyExc BaseClientWebSocket :=
  if c.wbState = .connecting then .ok { c with wbState := .connected }
  else .error .runtimeError

/-- `accept(client_id, uuid_code)` (`queue.py` 38-48): when either argument
is `None` it returns the result of `send_error_message(...)` without
accepting or closing; otherwise it assigns `clinic_id` and `uuid` and
accepts the transport.  The second component is an exception escaping the
call. -/
def accept (c : BaseClientWebSocket) (client_id : Option Int)
    (uuid_code : Option String) : BaseClientWebSocket × Option PyExc :=
  if client_id = none ∨ uuid_code = none then
    match c.send_error_message "Client ID ou UUID não informado" with
    | .ok c' => (c', none)
    | .error e => (c, some e)
  else
    let c' := { c with clinic_id := client_id, uuid := uuid_code }
    match c'.wbAccept with
    | .ok c'' => (c'', none)
    | .error e => (c', some e)

end BaseClientWebSocket

/-- `BaseConnectionManager` (`queue.py` 89-): the singleton's mutable state is
the list `client_connections`.  Connections are stored by reference, so the
list holds the current state of each connection object. -/
structure BaseConnectionManager where
  client_connections : List BaseClientWebSocket
deriving DecidableEq, Repr

namespace BaseConnectionManager

/-- Python aliasing: a mutation of a connection object is visible through the
registry list.  `updateIn` writes the new state of the object identified by
`c.objId` back into the list (object identity, not structural equality). -/
def updateIn (st : BaseConnectionManager) (c : BaseClientWebSocket) :
    BaseConnectionManager :=
  ⟨st.client_connections.map fun x => if x.objId = c.objId then c else x⟩

/-- `list.remove(client)`: removes the first element identical to `client`
(`BaseClientWebSocket` has default identity equality); no-op when absent. -/
def removeFirst : List BaseClientWebSocket → Nat → List BaseClientWebSocket
  | [], _ => []
  | x :: xs, oid => if x.objId = oid then xs else x :: removeFirst xs oid

/-- `disconnect(client)` (`queue.py` 111-116): removes the client from
`client_connections` if present, then runs
`if client.wb.state == WebSocketState.CONNECTED: await client.close()`.
The guard compares the request-`State` object with the enum and is
constantly false, so `close()` is never called: the registry entry is
removed but the transport stays in whatever state it was.  Returns the new
registry and the client object's state. -/
def disconnect (st : BaseConnectionManager) (client : BaseClientWebSocket) :
    BaseConnectionManager × BaseClientWebSocket :=
  let st' : BaseConnectionManager :=
    ⟨removeFirst st.client_connections client.objId⟩
  let client' :=
    if client.wbStateIsConnected then client.close else client
  (st', client')

/-- `get_connection_by_uuid(uuid_code)` (`queue.py` 122-129): linear scan
comparing `connection.uuid == uuid_code`; reading `uuid` on a connection
that was never accepted raises `AttributeError`. -/
def get_connection_by_uuid (st : BaseConnectionManager) (uuid_code : String) :
    Except PyExc (Option BaseClientWebSocket) :=
  go st.client_connections
where
  go : List BaseClientWebSocket → Except PyExc (Option BaseClientWebSocket)
  | [] => .ok none
  | c :: rest =>
      match c.uuid with
      | none => .error .attributeError
      | some u => if u = uuid_code then .ok (some c) else go rest

/-- `broadcast_clinic_messages(clinic_id, message)` (`queue.py` 140-144):
iterates over `client_connections` in order and sends `message` to every
connection whose `clinic_id` matches.  There is no `try` in the method, so
the first failing send (or unset `clinic_id` attribute) propagates out and
the remaining connections are not visited. -/
def broadcast_clinic_messages (st : BaseConnectionManager) (clinic_id : Int)
    (message : Message) : BaseConnectionManager × Option PyExc :=
  let (l, e) := go st.client_connections
  (⟨l⟩, e)
where
  /-- The loop over `client_connections`.  Each connection object occurs at
  most once in the registry (`connect` appends a fresh object), so the
  in-place mutation of the visited object is rendered positionally: the
  returned list is the registry after the loop, the prefix up to a failing
  send updated, the rest untouched. -/
  go : List BaseClientWebSocket → List BaseClientWebSocket × Option PyExc
  | [] => ([], none)
  | c :: rest =>
      match c.clinic_id with
      | none => (c :: rest, some .attributeError)
      | some k =>
          if k = clinic_id then
            match c.send message with
            | .ok c' =>
                let (rest', e) := go rest
                (c' :: rest', e)
            | .error e => (c :: rest, some e)
          else
            let (rest', e) := go rest
            (c :: rest', e)

/-- `__process_connection(message, client)` (`queue.py` 160-176).
The `try` body: when `message.data` is not a `ConnectionSchema`, send the
invalid-message response and return; otherwise assign
`client.token = message.data.token` and then build
`Message(message_type=..., clinic_id=...)`.  That constructor call uses the
FIELD NAMES, but `Message` declares validation aliases
(`messageType`/`clinicId`) and `BaseSchema` does not set
`populate_by_name`, so pydantic ignores the unknown keyword arguments
(`extra="ignore"`) and raises `ValidationError` for the missing required
aliased fields — after the token was already stored.  The `except
(OperationalError, AttributeError)` clause sends an error message, sleeps,
and awaits `disconnect`; `ValidationError` is neither, so it escapes.
Returns (registry, client object, escaping exception). -/
def process_connection (st : BaseConnectionManager)
    (message : Message) (client : BaseClientWebSocket) :
    BaseConnectionManager × BaseClientWebSocket × Option PyExc :=
  -- try body
  let body : BaseClientWebSocket × Option PyExc :=
    match message.data with
    | some (.connectionSchema tok) =>
        let c := { client with token := some tok }
        -- Message(message_type=.., clinic_id=..) raises ValidationError
        (c, some .validationError)
    | _ =>
        match client.send_invalid_message with
        | .ok c => (c, none)
        | .error e => (client, some e)
  match body with
  | (c, none) => (st.updateIn c, c, none)
  | (c, some e) =>
      if e = .operationalError ∨ e = .attributeError then
        match c.send_error_message "Erro ao validar conexão" with
        | .error e2 => (st.updateIn c, c, some e2)
        | .ok c2 =>
            let (st2, c3) := (st.updateIn c2).disconnect c2
            (st2, c3, none)
      else (st.updateIn c, c, some e)

/-- Python falsiness of `client.token` (`not client.token`): true for
`None` and for the empty string. -/
def tokenFalsy (c : BaseClientWebSocket) : Bool :=
  match c.token with
  | none => true
  | some s => s = ""

/-- `__process_message(message, client)` (`queue.py` 178-192).
Dispatch in the `try` body: `CONNECTION` messages go to
`__process_connection` (regardless of the token state); otherwise, when
`client.token` is falsy, send the "Token inválido" error, sleep briefly and
await `disconnect`; otherwise send the invalid-message response.  The
`except (AttributeError, OperationalError)` clause converts only those two
exception classes into the generic "Erro ao processar a mensagem" error
message; any other exception escapes. -/
def process_message (st : BaseConnectionManager)
    (message : Message) (client : BaseClientWebSocket) :
    BaseConnectionManager × BaseClientWebSocket × Option PyExc :=
  -- try body
  let body : BaseConnectionManager × BaseClientWebSocket × Option PyExc :=
    if message.message_type = .connection then
      st.process_connection message client
    else if tokenFalsy client then
      match client.send_error_message "Token inválido" with
      | .error e => (st, client, some e)
      | .ok c =>
          let (st2, c2) := (st.updateIn c).disconnect c
          (st2, c2, none)
    else
      match client.send_invalid_message with
      | .ok c => (st.updateIn c, c, none)
      | .error e => (st, client, some e)
  match body with
  | (st', c', some e) =>
      if e = .attributeError ∨ e = .operationalError then
        match c'.send_error_message "Erro ao processar a mensagem" with
        | .ok c2 => (st'.updateIn c2, c2, none)
        | .error e2 => (st', c', some e2)
      else (st', c', some e)
  | ok => ok

/-- One pass of the `while True` body of `__process_queue` (`queue.py`
194-200) with a non-empty queue: pop the oldest `(websocket, message)`
entry and run `__process_message` on it.  The loop has no exception
handler, so an exception escaping `__process_message` terminates the
drain loop: that outcome is `none`.  Otherwise the loop survives with the
updated registry and the remaining queue. -/
def process_queue_step (st : BaseConnectionManager)
    (queue : List (BaseClientWebSocket × Message)) :
    Option (BaseConnectionManager × List (BaseClientWebSocket × Message)) :=
  match queue with
  | [] => some (st, [])
  | (websocket, message) :: rest =>
      match st.process_message message websocket with
      | (st', _, none) => some (st', rest)
      | (_, _, some _) => none

end BaseConnectionManager

/-- One inbound websocket event, classified the way
`__listenner`'s control flow distinguishes frames:
`disconnectSignal` makes `receive_json` raise `WebSocketDisconnect`;
`notJson` is a text frame that is not well-formed JSON, making
`receive_json` itself raise `json.JSONDecodeError`; `jsonNotMessage` is
well-formed JSON that fails `Message.model_validate_json` (pydantic
`ValidationError`, a `ValueError`); `jsonMessage m` validates as `m`. -/
inductive Frame where
  | disconnectSignal
  | notJson
  | jsonNotMessage
  | jsonMessage (m : Message)
deriving DecidableEq, Repr

/-- The outcome of one iteration of `__listenner`'s `while True` loop. -/
inductive ListenOutcome where
  /-- The loop continues with the updated registry, client and queue. -/
  | continue_ (st : BaseConnectionManager) (client : BaseClientWebSocket)
      (queue : List (BaseClientWebSocket × Message))
  /-- The loop function returns normally (outer `except WebSocketDisconnect`
  ran).  Registry, client and queue as at exit. -/
  | exitNormal (st : BaseConnectionManager) (client : BaseClientWebSocket)
      (queue : List (BaseClientWebSocket × Message))
  /-- An exception escaped `__listenner`, ending the receive loop
  abnormally; registry, client and queue as at that point. -/
  | raised (e : PyExc) (st : BaseConnectionManager)
      (client : BaseClientWebSocket)
      (queue : List (BaseClientWebSocket × Message))
deriving DecidableEq, Repr

namespace BaseConnectionManager

/-- One iteration of `__listenner` (`queue.py` 146-158) on the next inbound
`frame`.  `data = await receive_json()` sits OUTSIDE the inner `try`, so a
`JSONDecodeError` from a non-JSON frame is not caught by the inner
`except (ValueError, AttributeError)` and, not being `WebSocketDisconnect`,
escapes the outer `try` as well.  A validation failure inside the inner
`try` sends the invalid-message response and continues.  On
`WebSocketDisconnect` the handler evaluates `self.disconnect(client)`
WITHOUT `await`: the coroutine object is created but never run, so neither
the registry removal nor the close takes effect, and the loop function
returns normally. -/
def listenner_iter (st : BaseConnectionManager)
    (websocket_client : BaseClientWebSocket)
    (queue : List (BaseClientWebSocket × Message)) (frame : Frame) :
    ListenOutcome :=
  match frame with
  | .disconnectSignal =>
      -- `self.disconnect(websocket_client)` -- missing await: no effect
      .exitNormal st websocket_client queue
  | .notJson => .raised .jsonDecodeError st websocket_client queue
  | .jsonNotMessage =>
      -- inner except (ValueError, AttributeError): send_invalid_message
      match websocket_client.send_invalid_message with
      | .ok c => .continue_ (st.updateIn c) c queue
      | .error e => .raised e st websocket_client queue
  | .jsonMessage m =>
      .continue_ st websocket_client (queue ++ [(websocket_client, m)])

end BaseConnectionManager

/-! Concrete fixtures used by witnesses and counterexamples. -/

/-- A registered, transport-connected, not-yet-authenticated connection of
clinic 42 (as produced by `connect`: accepted, uuid assigned, no token). -/
def sampleConn : BaseClientWebSocket :=
  { objId := 1, clinic_id := some 42, uuid := some "u1",
    wbState := .connected }

/-- A registry holding just `sampleConn`. -/
def sampleMgr : BaseConnectionManager := ⟨[sampleConn]⟩

/-- The valid handshake message of the spec's scenario:
`{messageType: 7, clinicId: 42, data: {token: "abc"}}`. -/
def handshakeMsg : Message :=
  { message_type := .connection, clinic_id := 42,
    data := some (.connectionSchema "abc") }

/-- An already-authenticated connection (token present) of clinic 7. -/
def authConn : BaseClientWebSocket :=
  { objId := 2, token := some "old", clinic_id := some 7,
    uuid := some "u2", wbState := .connected }

/-- A clinic-5 connection whose transport has already gone away (send
fails); still registered. -/
def deadConn5 : BaseClientWebSocket :=
  { objId := 10, clinic_id := some 5, uuid := some "d5",
    wbState := .disconnected }

/-- A healthy registered clinic-5 connection. -/
def liveConn5 : BaseClientWebSocket :=
  { objId := 11, clinic_id := some 5, uuid := some "l5",
    wbState := .connected }

/-- A second healthy registered clinic-5 connection. -/
def liveConn5b : BaseClientWebSocket :=
  { objId := 13, clinic_id := some 5, uuid := some "l5b",
    wbState := .connected }

/-- A healthy registered clinic-6 connection. -/
def liveConn6 : BaseClientWebSocket :=
  { objId := 12, clinic_id := some 6, uuid := some "l6",
    wbState := .connected }

/-- A freshly constructed `BaseClientWebSocket(wb)`: no attribute set
beyond the class defaults, transport still in the starlette `CONNECTING`
state. -/
def freshConn : BaseClientWebSocket := { objId := 20 }

/-!  ### Helper lemmas  -/

theorem sendJson_error {c : BaseClientWebSocket} {j : JsonFrame} {e : PyExc}
    (h : c.sendJson j = .error e) : e = .runtimeError := by
  unfold BaseClientWebSocket.sendJson at h
  split at h
  · exact absurd h (by simp)
  · cases h; rfl

theorem sendJson_ok {c c' : BaseClientWebSocket} {j : JsonFrame}
    (h : c.sendJson j = .ok c') :
    c' = { c with sent := c.sent ++ [j] } ∧ c.wbState = .connected := by
  unfold BaseClientWebSocket.sendJson at h
  split at h
  · exact ⟨by cases h; rfl, by assumption⟩
  · exact absurd h (by simp)

theorem send_error_message_cases (c : BaseClientWebSocket) (s : String)
    (k : Int) (h : c.clinic_id = some k) :
    (∃ c', c.send_error_message s = .ok c' ∧ c'.clinic_id = some k) ∨
    c.send_error_message s = .error .runtimeError := by
  obtain ⟨oid, tok, cl, uu, uid, wb, snt⟩ := c
  cases h
  cases wb
  · exact Or.inr rfl
  · exact Or.inl ⟨_, rfl, rfl⟩
  · exact Or.inr rfl

theorem send_invalid_message_cases (c : BaseClientWebSocket)
    (k : Int) (h : c.clinic_id = some k) :
    (∃ c', c.send_invalid_message = .ok c' ∧ c'.clinic_id = some k) ∨
    c.send_invalid_message = .error .runtimeError := by
  obtain ⟨oid, tok, cl, uu, uid, wb, snt⟩ := c
  cases h
  cases wb
  · exact Or.inr rfl
  · exact Or.inl ⟨_, rfl, rfl⟩
  · exact Or.inr rfl

namespace BaseConnectionManager

theorem removeFirst_subset {l : List BaseClientWebSocket} {oid : Nat}
    {x : BaseClientWebSocket} (h : x ∈ removeFirst l oid) : x ∈ l := by
  induction l with
  | nil => simp [removeFirst] at h
  | cons a as ih =>
      unfold removeFirst at h
      split at h
      · exact List.mem_cons_of_mem a h
      · rcases List.mem_cons.mp h with rfl | h'
        · exact List.mem_cons_self _ _
        · exact List.mem_cons_of_mem a (ih h')

theorem removeFirst_objId_ne {l : List BaseClientWebSocket} {oid : Nat}
    (h : (l.map BaseClientWebSocket.objId).Nodup) :
    ∀ x ∈ removeFirst l oid, x.objId ≠ oid := by
  induction l with
  | nil => intro x hx; simp [removeFirst] at hx
  | cons a as ih =>
      rw [List.map_cons, List.nodup_cons] at h
      intro x hx
      unfold removeFirst at hx
      split at hx
      · -- head removed: every remaining objId differs from a.objId = oid
        rename_i ha
        intro hxo
        apply h.1
        have hmem : x.objId ∈ List.map BaseClientWebSocket.objId as :=
          List.mem_map_of_mem _ hx
        rwa [hxo, ← ha] at hmem
      · rcases List.mem_cons.mp hx with rfl | hx'
        · assumption
        · exact ih h.2 x hx'

theorem removeFirst_eq_of_not_mem {l : List BaseClientWebSocket} {oid : Nat}
    (h : ∀ x ∈ l, x.objId ≠ oid) : removeFirst l oid = l := by
  induction l with
  | nil => rfl
  | cons a as ih =>
      unfold removeFirst
      rw [if_neg (h a (List.mem_cons_self a as))]
      rw [ih fun x hx => h x (List.mem_cons_of_mem a hx)]

theorem updateIn_map_objId (st : BaseConnectionManager)
    (c : BaseClientWebSocket) :
    (st.updateIn c).client_connections.map BaseClientWebSocket.objId
      = st.client_connections.map BaseClientWebSocket.objId := by
  unfold updateIn
  rw [List.map_map]
  refine List.map_congr_left fun x _ => ?_
  by_cases hx : x.objId = c.objId <;> simp [hx]

theorem broadcast_go_success (cid : Int) (message : Message)
    (l : List BaseClientWebSocket)
    (hcl : ∀ x ∈ l, x.clinic_id ≠ none)
    (hconn : ∀ x ∈ l, x.clinic_id = some cid → x.wbState = .connected) :
    broadcast_clinic_messages.go cid message l =
      (l.map fun x =>
        if x.clinic_id = some cid
        then { x with sent := x.sent ++ [message.model_dump] } else x,
       none) := by
  induction l with
  | nil => rfl
  | cons a as ih =>
      have ihr := ih (fun x hx => hcl x (List.mem_cons_of_mem a hx))
        (fun x hx => hconn x (List.mem_cons_of_mem a hx))
      rcases ha : a.clinic_id with - | k
      · exact absurd ha (hcl a (List.mem_cons_self _ _))
      · by_cases hk : k = cid
        · subst hk
          have hw : a.wbState = .connected :=
            hconn a (List.mem_cons_self _ _) ha
          have hsend : a.send message =
              .ok { a with sent := a.sent ++ [message.model_dump] } := by
            unfold BaseClientWebSocket.send BaseClientWebSocket.sendJson
            rw [if_pos hw]
          simp only [broadcast_clinic_messages.go, ha, hsend, ihr,
            List.map_cons, if_pos]
        · simp only [broadcast_clinic_messages.go, ha, if_neg hk, ihr,
            List.map_cons]
          rw [if_neg (by simp [ha, hk])]

theorem get_connection_by_uuid_go_none (u : String)
    (l : List BaseClientWebSocket)
    (h : ∀ x ∈ l, ∃ v, x.uuid = some v ∧ v ≠ u) :
    get_connection_by_uuid.go u l = .ok none := by
  induction l with
  | nil => rfl
  | cons a as ih =>
      rcases h a (List.mem_cons_self a as) with ⟨v, hv, hvu⟩
      unfold get_connection_by_uuid.go
      rw [hv]
      simp only [if_neg hvu]
      exact ih fun x hx => h x (List.mem_cons_of_mem a hx)

theorem process_connection_exc (st : BaseConnectionManager)
    (message : Message) (client : BaseClientWebSocket) (k : Int)
    (h : client.clinic_id = some k) :
    (st.process_connection message client).2.2 = none ∨
    (st.process_connection message client).2.2 = some .validationError ∨
    (st.process_connection message client).2.2 = some .runtimeError := by
  unfold BaseConnectionManager.process_connection
  rcases hd : message.data with - | d
  · rcases send_invalid_message_cases client k h with ⟨c', hc', -⟩ | hc' <;>
      simp [hc']
  · cases d with
    | connectionSchema tok => simp
    | createUUIDSchema u =>
        rcases send_invalid_message_cases client k h with ⟨c', hc', -⟩ | hc' <;>
          simp [hc']
    | errorResponseSchema e =>
        rcases send_invalid_message_cases client k h with ⟨c', hc', -⟩ | hc' <;>
          simp [hc']

theorem process_message_exc (st : BaseConnectionManager)
    (message : Message) (client : BaseClientWebSocket) (k : Int)
    (h : client.clinic_id = some k) :
    (st.process_message message client).2.2 = none ∨
    (st.process_message message client).2.2 = some .validationError ∨
    (st.process_message message client).2.2 = some .runtimeError := by
  unfold BaseConnectionManager.process_message
  by_cases hty : message.message_type = .connection
  · rw [if_pos hty]
    have hx := process_connection_exc st message client k h
    rcases hpc : st.process_connection message client with ⟨st', c', exc⟩
    rw [hpc] at hx
    rcases hx with h1 | h1 | h1 <;> simp only at h1 <;> subst h1 <;> simp
  · rw [if_neg hty]
    by_cases htf : tokenFalsy client
    · simp only [htf, if_true]
      rcases send_error_message_cases client "Token inválido" k h with
        ⟨c', hc', -⟩ | hc' <;> rw [hc'] <;> simp
    · simp only [htf, if_false, Bool.false_eq_true]
      rcases send_invalid_message_cases client k h with ⟨c', hc', -⟩ | hc' <;>
        rw [hc'] <;> simp

end BaseConnectionManager

/-!  ### Claim theorems  -/

/-- C2.  Processing a CONNECTION-HANDSHAKE with a well-shaped payload on an
unauthenticated connection stores the token, but the CONNECTION
acknowledgement is never sent: the acknowledgement is constructed with the
keyword arguments `message_type=`/`clinic_id=` while the model only
accepts the validation aliases `messageType`/`clinicId`, so pydantic
raises `ValidationError`, which escapes `__process_message`'s
`except (AttributeError, OperationalError)`.  The connection's wire output
stays empty — no acknowledgement frame — contradicting the claim. -/
theorem c2_handshake_stores_token_but_ack_raises :
    sampleMgr.process_message handshakeMsg sampleConn =
      (⟨[{ sampleConn with token := some "abc" }]⟩,
       { sampleConn with token := some "abc" },
       some .validationError) ∧
    ({ sampleConn with token := some "abc" } : BaseClientWebSocket).sent
      = [] := by decide

/-- C10.  A further CONNECTION-HANDSHAKE on an already-authenticated
connection is indeed dispatched to handshake processing (not rejected as
unrecognized) and the stored token is overwritten, but the promised second
CONNECTION acknowledgement is never sent: the same aliased-constructor
`ValidationError` as in the first handshake escapes instead, with no new
frame on the wire. -/
theorem c10_rehandshake_overwrites_token_but_ack_raises :
    (⟨[authConn]⟩ : BaseConnectionManager).process_message
        { message_type := .connection, clinic_id := 7,
          data := some (.connectionSchema "new") } authConn =
      (⟨[{ authConn with token := some "new" }]⟩,
       { authConn with token := some "new" },
       some .validationError) := by decide

/-- C1 counterexample.  The drain loop does NOT keep running after
processing any single message: popping a perfectly valid handshake message
makes `__process_message` raise `ValidationError` (uncaught by its
`except (AttributeError, OperationalError)`), and `__process_queue` has no
handler, so the background drain task dies. -/
theorem c1_cex_drain_loop_dies_on_handshake :
    BaseConnectionManager.process_queue_step sampleMgr
      [(sampleConn, handshakeMsg)] = none := by decide

/-- C1 amended.  The processor boundary catches only `AttributeError` and
`OperationalError`; for a connection whose clinic id attribute is set
(every connection registered through `connect` has it), processing a
queued entry either escapes no exception — and then the drain loop
survives and moves to the rest of the queue — or escapes an exception
that is neither `AttributeError` nor `OperationalError` (such as the
`ValidationError` raised while acknowledging a handshake), and that
exception terminates the drain loop. -/
theorem c1_amended_drain_loop_survives_iff_no_uncaught_exception
    (st : BaseConnectionManager) (message : Message)
    (client : BaseClientWebSocket) (k : Int)
    (rest : List (BaseClientWebSocket × Message))
    (h : client.clinic_id = some k) :
    ((st.process_message message client).2.2 = none ∧
      BaseConnectionManager.process_queue_step st
          ((client, message) :: rest) =
        some ((st.process_message message client).1, rest)) ∨
    (∃ e, (st.process_message message client).2.2 = some e ∧
      e ≠ .attributeError ∧ e ≠ .operationalError ∧
      BaseConnectionManager.process_queue_step st
        ((client, message) :: rest) = none) := by
  have hq : BaseConnectionManager.process_queue_step st
      ((client, message) :: rest) =
      (match st.process_message message client with
       | (st', _, none) => some (st', rest)
       | (_, _, some _) => none) := rfl
  have hx := BaseConnectionManager.process_message_exc st message client k h
  rcases hr : st.process_message message client with ⟨st', c', exc⟩
  rw [hr] at hx hq
  rcases hx with h1 | h1 | h1 <;> simp only at h1 <;> subst h1
  · exact Or.inl ⟨rfl, by rw [hq]⟩
  · exact Or.inr ⟨.validationError, rfl, by simp, by simp, by rw [hq]⟩
  · exact Or.inr ⟨.runtimeError, rfl, by simp, by simp, by rw [hq]⟩

/-- C1 amended, witness: an authenticated connection receiving an
unrecognized (INVALID-typed) message — the processor sends the
invalid-message response, no exception escapes, and the drain loop
continues with the rest of the queue. -/
theorem c1_amended_drain_loop_witness :
    (((⟨[authConn]⟩ : BaseConnectionManager).process_message
          { message_type := .invalid, clinic_id := 7 } authConn).2.2
        = none ∧
      BaseConnectionManager.process_queue_step ⟨[authConn]⟩
          [(authConn, { message_type := .invalid, clinic_id := 7 })] =
        some (((⟨[authConn]⟩ : BaseConnectionManager).process_message
            { message_type := .invalid, clinic_id := 7 } authConn).1,
          [])) ∨
    (∃ e, ((⟨[authConn]⟩ : BaseConnectionManager).process_message
          { message_type := .invalid, clinic_id := 7 } authConn).2.2
        = some e ∧
      e ≠ .attributeError ∧ e ≠ .operationalError ∧
      BaseConnectionManager.process_queue_step ⟨[authConn]⟩
          [(authConn, { message_type := .invalid, clinic_id := 7 })] =
        none) :=
  c1_amended_drain_loop_survives_iff_no_uncaught_exception
    ⟨[authConn]⟩ { message_type := .invalid, clinic_id := 7 } authConn 7
    [] rfl

/-- C5.  On a transport-level disconnect signal the receive loop exits, but
the handler evaluates `self.disconnect(websocket_client)` without `await`:
the coroutine is never run, so the connection is NOT removed — a lookup by
its correlation id still finds it — and its transport is never closed. -/
theorem c5_disconnect_signal_leaves_connection_registered :
    BaseConnectionManager.listenner_iter sampleMgr sampleConn []
        .disconnectSignal = .exitNormal sampleMgr sampleConn [] ∧
    sampleMgr.get_connection_by_uuid "u1" = .ok (some sampleConn) ∧
    sampleConn.wbState = .connected := by decide

/-- C8.  A frame that is well-formed JSON but fails to validate as a
`Message` does get exactly one INVALID response and the loop continues;
but a frame that is NOT well-formed JSON makes `receive_json` itself raise
`json.JSONDecodeError` OUTSIDE the inner `try`, so no INVALID response is
sent and the exception escapes the listener, terminating the receive
loop — contrary to the claim. -/
theorem c8_malformed_json_kills_listener :
    BaseConnectionManager.listenner_iter sampleMgr sampleConn [] .notJson =
      .raised .jsonDecodeError sampleMgr sampleConn [] ∧
    BaseConnectionManager.listenner_iter sampleMgr sampleConn []
        .jsonNotMessage =
      .continue_
        ⟨[{ sampleConn with
              sent := [Message.model_dump
                { message_type := .invalid, clinic_id := 42 }] }]⟩
        { sampleConn with
            sent := [Message.model_dump
              { message_type := .invalid, clinic_id := 42 }] }
        [] := by decide

/-- C6.  `accept` with a missing identifier on a fresh connection: the code
tries to send the error message, but building it reads `self.clinic_id`,
an attribute that is never assigned before `accept`, so `AttributeError`
escapes — no error message reaches the client — and `close()` is never
called: the transport is left in `CONNECTING`, neither accepted (the
never-OPEN part of the claim does hold) nor closed. -/
theorem c6_accept_missing_id_raises_without_closing :
    freshConn.accept none (some "u9") = (freshConn, some .attributeError) ∧
    freshConn.wbState = .connecting ∧ freshConn.sent = [] := by decide

/-- C4 counterexample.  Registry `[deadConn5, liveConn5]`, both of clinic
5: the send to `deadConn5` fails, the exception propagates out of
`broadcast_clinic_messages` (the method has no `try`), so `liveConn5`
never receives the message and `deadConn5` is not removed — both parts of
the claim's failure clause are violated. -/
theorem c4_cex_send_failure_aborts_broadcast :
    BaseConnectionManager.broadcast_clinic_messages ⟨[deadConn5, liveConn5]⟩
        5 { message_type := .invalid, clinic_id := 5 } =
      (⟨[deadConn5, liveConn5]⟩, some .runtimeError) ∧
    liveConn5.sent = [] := by decide

/-- C4 amended.  When every registered connection has its clinic id set and
every connection of the target clinic has a live transport (so no send
fails), `broadcast_clinic_messages` raises nothing and delivers the
message exactly once to every connection whose clinic id matches, leaving
every other connection's wire output untouched and the registry membership
unchanged.  (When a send fails, the preceding counterexample shows the
loop aborts: later matching targets receive nothing and the failed
connection stays registered.) -/
theorem c4_amended_broadcast_delivers_when_sends_succeed
    (st : BaseConnectionManager) (cid : Int) (message : Message)
    (hcl : ∀ x ∈ st.client_connections, x.clinic_id ≠ none)
    (hconn : ∀ x ∈ st.client_connections,
      x.clinic_id = some cid → x.wbState = .connected) :
    st.broadcast_clinic_messages cid message =
      (⟨st.client_connections.map fun x =>
          if x.clinic_id = some cid
          then { x with sent := x.sent ++ [message.model_dump] } else x⟩,
       none) := by
  unfold BaseConnectionManager.broadcast_clinic_messages
  rw [BaseConnectionManager.broadcast_go_success cid message _ hcl hconn]

/-- C4 amended, witness: three registered connections, two of clinic 5 and
one of clinic 6, all live; broadcasting to clinic 5 delivers to exactly
the two clinic-5 connections. -/
theorem c4_amended_broadcast_witness :
    BaseConnectionManager.broadcast_clinic_messages
        ⟨[liveConn5, liveConn5b, liveConn6]⟩ 5
        { message_type := .invalid, clinic_id := 5 } =
      (⟨[liveConn5, liveConn5b, liveConn6].map fun x =>
          if x.clinic_id = some 5
          then { x with sent := x.sent ++
            [Message.model_dump
              { message_type := .invalid, clinic_id := 5 }] }
          else x⟩,
       none) :=
  c4_amended_broadcast_delivers_when_sends_succeed
    ⟨[liveConn5, liveConn5b, liveConn6]⟩ 5
    { message_type := .invalid, clinic_id := 5 }
    (by decide) (by decide)

/-- C3.  For the unauthenticated `sampleConn` (clinic 42, registered
alone, live transport), a non-handshake (INVALID-typed) message does
produce exactly one "Token inválido" ERROR frame and the connection IS
removed from the registry with no escaping exception — but the claim's
"transport closed" part fails: the guard
`client.wb.state == WebSocketState.CONNECTED` in `disconnect`
(`queue.py` 115) compares starlette's request-`State` object with the
enum, is constantly false, and so `close()` is never called; the
transport is still CONNECTED afterwards. -/
theorem c3_error_sent_and_removed_but_transport_never_closed :
    sampleMgr.process_message
        { message_type := .invalid, clinic_id := 42 } sampleConn =
      (⟨[]⟩,
       { sampleConn with
           sent := [Message.model_dump
             { message_type := .error, clinic_id := 42,
               data := some (.errorResponseSchema "Token inválido") }] },
       none) ∧
    ({ sampleConn with
         sent := [Message.model_dump
           { message_type := .error, clinic_id := 42,
             data := some (.errorResponseSchema "Token inválido") }] }
       : BaseClientWebSocket).wbState = .connected := by decide

/-- C7.  With unique object identities in the registry, a unique holder of
the correlation id `u`, and every registered connection's uuid attribute
set (all invariants `connect` maintains), disconnecting a connection makes
a subsequent lookup by its correlation id return `None`, and a second
`disconnect` of the same connection returns the registry and the
connection unchanged: no exception, no duplicate removal. -/
theorem c7_disconnect_idempotent (st : BaseConnectionManager)
    (client : BaseClientWebSocket) (u : String)
    (_hu : client.uuid = some u)
    (hnd : (st.client_connections.map BaseClientWebSocket.objId).Nodup)
    (huniq : ∀ x ∈ st.client_connections,
      x.uuid = some u → x.objId = client.objId)
    (hset : ∀ x ∈ st.client_connections, x.uuid ≠ none) :
    (st.disconnect client).1.get_connection_by_uuid u = .ok none ∧
    (st.disconnect client).1.disconnect (st.disconnect client).2 =
      ((st.disconnect client).1, (st.disconnect client).2) := by
  have hd : st.disconnect client =
      (⟨BaseConnectionManager.removeFirst st.client_connections
          client.objId⟩, client) := rfl
  have hobj : ∀ x ∈ BaseConnectionManager.removeFirst st.client_connections
      client.objId, x.objId ≠ client.objId :=
    BaseConnectionManager.removeFirst_objId_ne hnd
  rw [hd]
  constructor
  · -- the removed connection's uuid no longer resolves
    refine BaseConnectionManager.get_connection_by_uuid_go_none u _
      fun x hx => ?_
    have hxl : x ∈ st.client_connections :=
      BaseConnectionManager.removeFirst_subset hx
    rcases hv : x.uuid with - | v
    · exact absurd hv (hset x hxl)
    · refine ⟨v, rfl, fun hvu => ?_⟩
      exact hobj x hx (huniq x hxl (by rw [hv, hvu]))
  · -- a second disconnect is a no-op: the removed list holds nothing with
    -- this objId, and the (dead) close branch touches nothing either
    unfold BaseConnectionManager.disconnect
    rw [BaseConnectionManager.removeFirst_eq_of_not_mem hobj]
    rfl

/-- C7 witness: disconnecting `sampleConn` from the singleton registry,
then looking up "u1" and disconnecting again. -/
theorem c7_disconnect_idempotent_witness :
    (sampleMgr.disconnect sampleConn).1.get_connection_by_uuid "u1"
      = .ok none ∧
    (sampleMgr.disconnect sampleConn).1.disconnect
        (sampleMgr.disconnect sampleConn).2 =
      ((sampleMgr.disconnect sampleConn).1,
       (sampleMgr.disconnect sampleConn).2) :=
  c7_disconnect_idempotent sampleMgr sampleConn "u1" rfl (by decide)
    (by decide) (by decide)

/-- C9 counterexample.  The frame `send` writes for a concrete message uses
the pydantic FIELD NAMES as keys — `model_dump()` defaults to
`by_alias=False` — so the wire object's keys are
`message_type`/`clinic_id`/`data`, and `messageType` is not among them;
moreover `data` is always present (as `null`), not omitted. -/
theorem c9_cex_wire_keys_are_field_names :
    sampleConn.send { message_type := .invalid, clinic_id := 42 } =
      .ok { sampleConn with
              sent := [Message.model_dump
                { message_type := .invalid, clinic_id := 42 }] } ∧
    (Message.model_dump
        { message_type := .invalid, clinic_id := 42 }).keys =
      ["message_type", "clinic_id", "data"] ∧
    "messageType" ∉
      (Message.model_dump
        { message_type := .invalid, clinic_id := 42 }).keys := by decide

/-- C9 amended.  Every `Message` the server serializes through `send` goes
on the wire as one JSON object whose keys are exactly `message_type` (a
small integer enum value, between 7 and 11), `clinic_id` (integer) and
`data` (always present; `null` exactly when the message carries no
payload, otherwise the payload's own dict) — the snake_case field names,
since `model_dump()` does not use the camelCase validation aliases. -/
theorem c9_amended_wire_format (c : BaseClientWebSocket) (m : Message)
    (h : c.wbState = .connected) :
    c.send m = .ok { c with sent := c.sent ++ [m.model_dump] } ∧
    m.model_dump.keys = ["message_type", "clinic_id", "data"] ∧
    (∃ n, 7 ≤ n ∧ n ≤ 11 ∧
      m.model_dump.fields =
        [("message_type", .num n),
         ("clinic_id", .num m.clinic_id),
         ("data", MsgData.model_dump m.data)]) ∧
    (MsgData.model_dump m.data = .null ↔ m.data = none) := by
  refine ⟨?_, rfl, ⟨m.message_type.toInt, ?_, ?_, rfl⟩, ?_⟩
  · unfold BaseClientWebSocket.send BaseClientWebSocket.sendJson
    rw [if_pos h]
  · cases m.message_type <;> decide
  · cases m.message_type <;> decide
  · rcases m.data with - | d
    · simp [MsgData.model_dump]
    · cases d <;> simp [MsgData.model_dump]

/-- C9 amended, witness: a connected client sending a concrete ERROR
message. -/
theorem c9_amended_wire_format_witness :
    sampleConn.send
        { message_type := .error, clinic_id := 3,
          data := some (.errorResponseSchema "x") } =
      .ok { sampleConn with
              sent := sampleConn.sent ++
                [Message.model_dump
                  { message_type := .error, clinic_id := 3,
                    data := some (.errorResponseSchema "x") }] } ∧
    (Message.model_dump
        { message_type := .error, clinic_id := 3,
          data := some (.errorResponseSchema "x") }).keys =
      ["message_type", "clinic_id", "data"] ∧
    (∃ n, 7 ≤ n ∧ n ≤ 11 ∧
      (Message.model_dump
        { message_type := .error, clinic_id := 3,
          data := some (.errorResponseSchema "x") }).fields =
        [("message_type", .num n),
         ("clinic_id", .num 3),
         ("data", MsgData.model_dump (some (.errorResponseSchema "x")))]) ∧
    (MsgData.model_dump (some (.errorResponseSchema "x")) = .null ↔
      (some (MsgData.errorResponseSchema "x") : Option MsgData) = none) :=
  c9_amended_wire_format sampleConn
    { message_type := .error, clinic_id := 3,
      data := some (.errorResponseSchema "x") } rfl

end PlusDbAgent
